import Mathlib

/-
  Verification of the snapshot tree size-attribution and multi-threshold
  evaluation engine of the check-vmware repository
  (package vsphere, snapshots source file).

  The Go code is embedded shallowly:
  * `time.Time` values are modelled as `Int` nanoseconds since an epoch;
    `time.Now()` becomes an explicit `now : Int` parameter threaded to the
    functions that consult the ambient clock.  `AddDate(0, 0, -days)` becomes
    subtraction of `days * nsPerDay`.
  * Go `int64` / `int` values are modelled as `Int`; the one arithmetic
    operation whose two's-complement wraparound is observable in any claim
    (the `thresholdSize * units.GB` product inside `ExceedsSize`) is wrapped
    explicitly with `int64Wrap`.
  * Go maps become association-list lookups with last-write-wins semantics,
    and a missing key yields the zero value (size 0), as in Go.
  * Slices become `List`s; the in-place `removeFileKey` mutation becomes a
    function returning the list with the first occurrence of the key removed.
-/

namespace CheckVMware

/-- `units.GB` from govmomi: a binary gigabyte, 1024^3 bytes. -/
def GB : Int := 1073741824

/-- Two's-complement wraparound of a Go `int64` product: reduce into
`[-2^63, 2^63)`. -/
def int64Wrap (x : Int) : Int :=
  (x + 9223372036854775808) % 18446744073709551616 - 9223372036854775808

/-- Nanoseconds in a 24-hour day, the unit used to model
`time.AddDate(0, 0, -days)` on the `Int` timestamp model. -/
def nsPerDay : Int := 86400000000000

/-- Embedding of `ExceedsSize` (snapshots source, lines 27-29):
`snapshotSize > thresholdSize * units.GB`, with the Go `int64`
multiplication wrapping two's-complement. -/
def ExceedsSize (snapshotSize thresholdSize : Int) : Bool :=
  snapshotSize > int64Wrap (thresholdSize * GB)

/-- Embedding of `ExceedsAge` (snapshots source, lines 33-57).  The ambient
`time.Now()` is the explicit first parameter `now`; the threshold is
`now.AddDate(0, 0, -days)`, i.e. `now - days * nsPerDay` in the timestamp
model.  The Go switch over Before / Equal / After is kept. -/
def ExceedsAge (now snapshotCreated : Int) (days : Int) : Bool :=
  let ageThreshold := now - days * nsPerDay
  if snapshotCreated < ageThreshold then true
  else if snapshotCreated = ageThreshold then false
  else false

/-- `types.ManagedObjectReference`, reduced to the `Value` field, the only
field the embedded code reads. -/
structure ManagedObjectReference where
  Value : String
deriving DecidableEq, Repr

/-- `types.VirtualMachineFileLayoutExFileInfo`: `Key`, `Name` and `Size` are
the fields the engine reads (the `Type` field is only used for logging and is
omitted). -/
structure VirtualMachineFileLayoutExFileInfo where
  Key : Int
  Name : String
  Size : Int
deriving DecidableEq, Repr

/-- `types.VirtualMachineFileLayoutExDiskUnit`: one link of a disk chain,
holding a list of file keys. -/
structure VirtualMachineFileLayoutExDiskUnit where
  FileKey : List Int
deriving DecidableEq, Repr

/-- `types.VirtualMachineFileLayoutExDiskLayout`: the chain of one disk. -/
structure VirtualMachineFileLayoutExDiskLayout where
  Chain : List VirtualMachineFileLayoutExDiskUnit
deriving DecidableEq, Repr

/-- `types.VirtualMachineFileLayoutExSnapshotLayout`: layout entry of one
snapshot (`Key` identifies the snapshot, `DataKey` its data file, `Disk` its
disk chains). -/
structure VirtualMachineFileLayoutExSnapshotLayout where
  Key : ManagedObjectReference
  DataKey : Int
  Disk : List VirtualMachineFileLayoutExDiskLayout
deriving DecidableEq, Repr

/-- `types.VirtualMachineFileLayoutEx`, restricted to the three fields the
engine reads. -/
structure VirtualMachineFileLayoutEx where
  File : List VirtualMachineFileLayoutExFileInfo
  Disk : List VirtualMachineFileLayoutExDiskLayout
  Snapshot : List VirtualMachineFileLayoutExSnapshotLayout
deriving DecidableEq, Repr

/-- `types.VirtualMachineSnapshotTree`: one node of the snapshot forest.
`CreateTime` is an `Int` timestamp (see the embedding note at the top). -/
inductive VirtualMachineSnapshotTree where
  | mk (Snapshot : ManagedObjectReference) (Name : String) (Description : String)
      (Id : Int) (CreateTime : Int)
      (ChildSnapshotList : List VirtualMachineSnapshotTree)

/-- Accessor for the `Snapshot` reference of a tree node. -/
def VirtualMachineSnapshotTree.Snapshot : VirtualMachineSnapshotTree → ManagedObjectReference
  | .mk s _ _ _ _ _ => s

/-- Accessor for the `Name` of a tree node. -/
def VirtualMachineSnapshotTree.Name : VirtualMachineSnapshotTree → String
  | .mk _ n _ _ _ _ => n

/-- Accessor for the `Description` of a tree node. -/
def VirtualMachineSnapshotTree.Description : VirtualMachineSnapshotTree → String
  | .mk _ _ d _ _ _ => d

/-- Accessor for the `Id` of a tree node. -/
def VirtualMachineSnapshotTree.Id : VirtualMachineSnapshotTree → Int
  | .mk _ _ _ i _ _ => i

/-- Accessor for the `CreateTime` of a tree node. -/
def VirtualMachineSnapshotTree.CreateTime : VirtualMachineSnapshotTree → Int
  | .mk _ _ _ _ c _ => c

/-- Accessor for the `ChildSnapshotList` of a tree node. -/
def VirtualMachineSnapshotTree.ChildSnapshotList :
    VirtualMachineSnapshotTree → List VirtualMachineSnapshotTree
  | .mk _ _ _ _ _ c => c

/-- `types.VirtualMachineSnapshotInfo`.  `NewSnapshotSummarySet` dereferences
`vm.Snapshot` and `vm.Snapshot.CurrentSnapshot` unconditionally, so both are
modelled as present (non-nil). -/
structure VirtualMachineSnapshotInfo where
  CurrentSnapshot : ManagedObjectReference
  RootSnapshotList : List VirtualMachineSnapshotTree

/-- `mo.VirtualMachine`, restricted to the fields the engine reads. -/
structure VirtualMachine where
  Name : String
  Self : ManagedObjectReference
  Snapshot : VirtualMachineSnapshotInfo
  LayoutEx : VirtualMachineFileLayoutEx

/-- `SnapshotSummary` (snapshots source, lines 91-129). -/
structure SnapshotSummary where
  Name : String
  MOID : String
  Description : String
  createTime : Int
  Size : Int
  ID : Int
  ageWarningState : Bool
  ageCriticalState : Bool
  sizeWarningState : Bool
  sizeCriticalState : Bool
  VMName : String
deriving DecidableEq, Repr

/-- `SnapshotSummarySet` (snapshots source, lines 134-157). -/
structure SnapshotSummarySet where
  VM : ManagedObjectReference
  VMName : String
  Snapshots : List SnapshotSummary
  setSizeWarningState : Bool
  setSizeCriticalState : Bool
deriving DecidableEq, Repr

/-- `SnapshotSummarySets`: a collection of sets for bulk operations. -/
abbrev SnapshotSummarySets := List SnapshotSummarySet

/-- `SnapshotSummarySet.Size` (lines 165-172): sum of the sizes of all
snapshots in the set, accumulated left to right as in the Go loop. -/
def SnapshotSummarySet.Size (sss : SnapshotSummarySet) : Int :=
  sss.Snapshots.foldl (fun sum s => sum + s.Size) 0

/-- `SnapshotSummary.IsAgeExceeded` (lines 309-311); `now` is the ambient
clock parameter. -/
def SnapshotSummary.IsAgeExceeded (now : Int) (ss : SnapshotSummary) (days : Int) : Bool :=
  ExceedsAge now ss.createTime days

/-- `SnapshotSummary.IsSizeExceeded` (lines 315-317). -/
def SnapshotSummary.IsSizeExceeded (ss : SnapshotSummary) (sizeGB : Int) : Bool :=
  ExceedsSize ss.Size sizeGB

/-- `SnapshotSummarySet.ExceedsAge` (lines 183-193): how many snapshots in
the set are older than the given number of days. -/
def SnapshotSummarySet.ExceedsAge (now : Int) (sss : SnapshotSummarySet) (days : Int) : Nat :=
  sss.Snapshots.countP (fun snap => snap.IsAgeExceeded now days)

/-- `SnapshotSummarySet.ExceedsSize` (lines 199-209): how many snapshots in
the set are individually larger than the given size in GB. -/
def SnapshotSummarySet.ExceedsSize (sss : SnapshotSummarySet) (sizeGB : Int) : Nat :=
  sss.Snapshots.countP (fun snap => snap.IsSizeExceeded sizeGB)

/-- `SnapshotSummarySets.Snapshots` (lines 212-220): total number of
snapshots across all sets. -/
def SnapshotSummarySets.Snapshots (sss : SnapshotSummarySets) : Nat :=
  sss.foldl (fun numSnapshots set => numSnapshots + set.Snapshots.length) 0

/-- `SnapshotSummarySets.ExceedsAge` (lines 224-236): pair of (number of
sets with at least one snapshot exceeding the age, number of snapshots in
those sets exceeding the age). -/
def SnapshotSummarySets.ExceedsAge (now : Int) (sss : SnapshotSummarySets) (days : Int) :
    Nat × Nat :=
  sss.foldl
    (fun acc set =>
      if set.ExceedsAge now days ≥ 1 then
        (acc.1 + 1, acc.2 + set.ExceedsAge now days)
      else acc)
    (0, 0)

/-- `SnapshotSummarySets.ExceedsSize` (lines 240-252): pair of (number of
sets whose cumulative size exceeds the threshold, running count bumped by
`len(set.Snapshots)` for each such set).  The Go guard
`set.Size() > (int64(sizeGB) * units.GB)` is the body of `ExceedsSize`. -/
def SnapshotSummarySets.ExceedsSize (sss : SnapshotSummarySets) (sizeGB : Int) : Nat × Nat :=
  sss.foldl
    (fun acc set =>
      if CheckVMware.ExceedsSize set.Size sizeGB then
        (acc.1 + 1, acc.2 + set.Snapshots.length)
      else acc)
    (0, 0)

/-- `SnapshotSummary.IsWarningState` (lines 321-323). -/
def SnapshotSummary.IsWarningState (ss : SnapshotSummary) : Bool :=
  ss.ageWarningState || ss.sizeWarningState

/-- `SnapshotSummary.IsCriticalState` (lines 327-329). -/
def SnapshotSummary.IsCriticalState (ss : SnapshotSummary) : Bool :=
  ss.ageCriticalState || ss.sizeCriticalState

/-- `SnapshotSummary.IsAgeWarningState` (lines 333-335). -/
def SnapshotSummary.IsAgeWarningState (ss : SnapshotSummary) : Bool :=
  ss.ageWarningState

/-- `SnapshotSummary.IsAgeCriticalState` (lines 339-341). -/
def SnapshotSummary.IsAgeCriticalState (ss : SnapshotSummary) : Bool :=
  ss.ageCriticalState

/-- `SnapshotSummary.IsSizeWarningState` (lines 345-347). -/
def SnapshotSummary.IsSizeWarningState (ss : SnapshotSummary) : Bool :=
  ss.sizeWarningState

/-- `SnapshotSummary.IsSizeCriticalState` (lines 351-353). -/
def SnapshotSummary.IsSizeCriticalState (ss : SnapshotSummary) : Bool :=
  ss.sizeCriticalState

/-- `SnapshotSummarySet.IsWarningState` (lines 357-365): the for-loop with
early return is `List.any`. -/
def SnapshotSummarySet.IsWarningState (sss : SnapshotSummarySet) : Bool :=
  sss.Snapshots.any (fun s => s.IsWarningState)

/-- `SnapshotSummarySet.IsCriticalState` (lines 369-377). -/
def SnapshotSummarySet.IsCriticalState (sss : SnapshotSummarySet) : Bool :=
  sss.Snapshots.any (fun s => s.IsCriticalState)

/-- `SnapshotSummarySet.IsAgeWarningState` (lines 381-389). -/
def SnapshotSummarySet.IsAgeWarningState (sss : SnapshotSummarySet) : Bool :=
  sss.Snapshots.any (fun s => s.IsAgeWarningState)

/-- `SnapshotSummarySet.IsAgeCriticalState` (lines 393-401). -/
def SnapshotSummarySet.IsAgeCriticalState (sss : SnapshotSummarySet) : Bool :=
  sss.Snapshots.any (fun s => s.IsAgeCriticalState)

/-- `SnapshotSummarySet.IsSizeWarningState` (lines 405-407): reads the
stored set-level flag. -/
def SnapshotSummarySet.IsSizeWarningState (sss : SnapshotSummarySet) : Bool :=
  sss.setSizeWarningState

/-- `SnapshotSummarySet.IsSizeCriticalState` (lines 411-413): reads the
stored set-level flag. -/
def SnapshotSummarySet.IsSizeCriticalState (sss : SnapshotSummarySet) : Bool :=
  sss.setSizeCriticalState

/-- `SnapshotSummarySets.IsWarningState` (lines 417-425). -/
def SnapshotSummarySets.IsWarningState (sss : SnapshotSummarySets) : Bool :=
  sss.any (fun set => set.IsWarningState)

/-- `SnapshotSummarySets.IsCriticalState` (lines 429-437). -/
def SnapshotSummarySets.IsCriticalState (sss : SnapshotSummarySets) : Bool :=
  sss.any (fun set => set.IsCriticalState)

/-- `SnapshotSummarySets.IsAgeWarningState` (lines 441-449). -/
def SnapshotSummarySets.IsAgeWarningState (sss : SnapshotSummarySets) : Bool :=
  sss.any (fun set => set.IsAgeWarningState)

/-- `SnapshotSummarySets.IsAgeCriticalState` (lines 453-461). -/
def SnapshotSummarySets.IsAgeCriticalState (sss : SnapshotSummarySets) : Bool :=
  sss.any (fun set => set.IsAgeCriticalState)

/-- `SnapshotSummarySets.IsSizeWarningState` (lines 465-473). -/
def SnapshotSummarySets.IsSizeWarningState (sss : SnapshotSummarySets) : Bool :=
  sss.any (fun set => set.IsSizeWarningState)

/-- `SnapshotSummarySets.IsSizeCriticalState` (lines 477-485). -/
def SnapshotSummarySets.IsSizeCriticalState (sss : SnapshotSummarySets) : Bool :=
  sss.any (fun set => set.IsSizeCriticalState)

/-- `removeFileKey` (lines 496-503): remove the first occurrence of `key`
from the list (the Go loop breaks after the first hit). -/
def removeFileKey : List Int → Int → List Int
  | [], _ => []
  | k :: ks, key => if k = key then ks else k :: removeFileKey ks key

/-- A `for key in keys: removeFileKey(&l, key)` loop: fold `removeFileKey`
over the keys. -/
def removeAll (l : List Int) (keys : List Int) : List Int :=
  keys.foldl removeFileKey l

/-- The flattened file-key list of a list of disk layouts, in loop order:
`for disk: for link in disk.Chain: append(out, link.FileKey...)`. -/
def diskLayoutKeys (disks : List VirtualMachineFileLayoutExDiskLayout) : List Int :=
  disks.flatMap (fun layoutExDisk => layoutExDisk.Chain.flatMap (fun link => link.FileKey))

/-- `vmAllDiskFileKeys` (lines 577-582): every file key of every chain of
every disk currently attached to the virtual machine. -/
def vmAllDiskFileKeys (vm : VirtualMachine) : List Int :=
  diskLayoutKeys vm.LayoutEx.Disk

/-- The `fileKeyMap` lookup (lines 589-605 build the Go map, last write
wins; a missing key yields the zero value, whose `Size` is 0).  Returns
`fileKeyMap[key].Size`. -/
def fileKeyMapSize (files : List VirtualMachineFileLayoutExFileInfo) (key : Int) : Int :=
  match files.reverse.find? (fun f => f.Key == key) with
  | some f => f.Size
  | none => 0

/-- `snapshotDiskFileKeys` as collected by the loop at lines 634-672 for the
snapshot tree under evaluation: for each layout entry whose `Key.Value`
matches the node, first the entry's `DataKey`, then all its disk-chain
keys. -/
def snapshotDiskFileKeysFor (layouts : List VirtualMachineFileLayoutExSnapshotLayout)
    (moid : String) : List Int :=
  layouts.flatMap (fun snapLayout =>
    if snapLayout.Key.Value = moid then snapLayout.DataKey :: diskLayoutKeys snapLayout.Disk
    else [])

/-- `parentSnapshotDiskFileKeys` as collected by the same loop (lines
663-671): empty when there is no parent, otherwise all disk-chain keys of
layout entries matching the parent (the parent's `DataKey` is not added). -/
def parentSnapshotDiskFileKeysFor (layouts : List VirtualMachineFileLayoutExSnapshotLayout)
    (parent : Option ManagedObjectReference) : List Int :=
  match parent with
  | none => []
  | some p =>
      layouts.flatMap (fun snapLayout =>
        if snapLayout.Key.Value = p.Value then diskLayoutKeys snapLayout.Disk
        else [])

/-- A `for fileKey in keys: snapshotSize += fileKeyMap[fileKey].Size`
loop. -/
def sumSizes (files : List VirtualMachineFileLayoutExFileInfo) (keys : List Int) : Int :=
  keys.foldl (fun snapshotSize fileKey => snapshotSize + fileKeyMapSize files fileKey) 0

/-- The per-node size attribution step of `crawlFunc` (lines 629-749):
collect this node's and its parent's file keys, prune either the attached
disk keys (root node) or the parent's disk keys (child node), sum the sizes
of the remaining keys, and, only for the currently-active snapshot, add the
sizes of the attached disk files left after removing every pre-pruning
snapshot key (`allSnapshotKeys`). -/
def attributedSize (vm : VirtualMachine) (snapMOID : String)
    (parent : Option ManagedObjectReference) : Int :=
  let snapshotDiskFileKeys := snapshotDiskFileKeysFor vm.LayoutEx.Snapshot snapMOID
  let parentSnapshotDiskFileKeys := parentSnapshotDiskFileKeysFor vm.LayoutEx.Snapshot parent
  let allSnapshotKeys := snapshotDiskFileKeys
  let remainingDiskFiles := vmAllDiskFileKeys vm
  let prunedKeys :=
    match parent with
    | none => removeAll snapshotDiskFileKeys (vmAllDiskFileKeys vm)
    | some _ => removeAll snapshotDiskFileKeys parentSnapshotDiskFileKeys
  let snapshotSize := sumSizes vm.LayoutEx.File prunedKeys
  if snapMOID = vm.Snapshot.CurrentSnapshot.Value then
    snapshotSize + sumSizes vm.LayoutEx.File (removeAll remainingDiskFiles allSnapshotKeys)
  else snapshotSize

/-- The `SnapshotSummary` record appended for one node (lines 758-770).
Note the source's pairing of the per-snapshot size flags:
`sizeWarningState` is computed against `snapshotsSizeCritical` and
`sizeCriticalState` against `snapshotsSizeWarning`. -/
def mkSnapshotSummary (now : Int)
    (snapshotsAgeCritical snapshotsAgeWarning snapshotsSizeCritical snapshotsSizeWarning : Int)
    (vm : VirtualMachine) (snapTree : VirtualMachineSnapshotTree)
    (parent : Option ManagedObjectReference) : SnapshotSummary :=
  let snapshotSize := attributedSize vm snapTree.Snapshot.Value parent
  { Name := snapTree.Name
    VMName := vm.Name
    ID := snapTree.Id
    MOID := snapTree.Snapshot.Value
    Description := snapTree.Description
    Size := snapshotSize
    createTime := snapTree.CreateTime
    ageWarningState := ExceedsAge now snapTree.CreateTime snapshotsAgeWarning
    ageCriticalState := ExceedsAge now snapTree.CreateTime snapshotsAgeCritical
    sizeWarningState := ExceedsSize snapshotSize snapshotsSizeCritical
    sizeCriticalState := ExceedsSize snapshotSize snapshotsSizeWarning }

mutual

/-- One iteration of the `for snapTree in snapTrees` loop of `crawlFunc`
(lines 615-776): emit this node's summary, then recurse into the children
with this node as parent. -/
def crawlTree (now : Int)
    (snapshotsAgeCritical snapshotsAgeWarning snapshotsSizeCritical snapshotsSizeWarning : Int)
    (vm : VirtualMachine) (t : VirtualMachineSnapshotTree)
    (parent : Option ManagedObjectReference) : List SnapshotSummary :=
  match t with
  | .mk snap nm desc id ct children =>
      mkSnapshotSummary now snapshotsAgeCritical snapshotsAgeWarning
          snapshotsSizeCritical snapshotsSizeWarning vm
          (.mk snap nm desc id ct children) parent ::
        crawlList now snapshotsAgeCritical snapshotsAgeWarning
          snapshotsSizeCritical snapshotsSizeWarning vm children (some snap)

/-- `crawlFunc` (lines 607-777) over a list of sibling trees, in input
order; an empty list returns immediately. -/
def crawlList (now : Int)
    (snapshotsAgeCritical snapshotsAgeWarning snapshotsSizeCritical snapshotsSizeWarning : Int)
    (vm : VirtualMachine) (ts : List VirtualMachineSnapshotTree)
    (parent : Option ManagedObjectReference) : List SnapshotSummary :=
  match ts with
  | [] => []
  | t :: rest =>
      crawlTree now snapshotsAgeCritical snapshotsAgeWarning
          snapshotsSizeCritical snapshotsSizeWarning vm t parent ++
        crawlList now snapshotsAgeCritical snapshotsAgeWarning
          snapshotsSizeCritical snapshotsSizeWarning vm rest parent

end

/-- `NewSnapshotSummarySet` (lines 547-799): crawl the snapshot forest from
the roots (no parent), then compute the cumulative `setSize` and the
set-level size flags (`setSizeWarningState` against the warning GB value,
`setSizeCriticalState` against the critical GB value). -/
def NewSnapshotSummarySet (now : Int) (vm : VirtualMachine)
    (snapshotsAgeCritical snapshotsAgeWarning snapshotsSizeCritical snapshotsSizeWarning : Int) :
    SnapshotSummarySet :=
  let snapshots := crawlList now snapshotsAgeCritical snapshotsAgeWarning
    snapshotsSizeCritical snapshotsSizeWarning vm vm.Snapshot.RootSnapshotList none
  let setSize := snapshots.foldl (fun acc snap => acc + snap.Size) 0
  { VM := vm.Self
    VMName := vm.Name
    Snapshots := snapshots
    setSizeWarningState := ExceedsSize setSize snapshotsSizeWarning
    setSizeCriticalState := ExceedsSize setSize snapshotsSizeCritical }

/-- The Nagios service states the plugins report. -/
inductive NagiosState where
  | OK
  | WARNING
  | CRITICAL
deriving DecidableEq, Repr

/-- The verdict switch of the snapshots-age plugin
(`cmd/check_vmware_snapshots_age/main.go`, lines 243-349): age-critical
beats age-warning beats OK. -/
def snapshotsAgeVerdict (sss : SnapshotSummarySets) : NagiosState :=
  if SnapshotSummarySets.IsAgeCriticalState sss then NagiosState.CRITICAL
  else if SnapshotSummarySets.IsAgeWarningState sss then NagiosState.WARNING
  else NagiosState.OK

/-- Modelled from the spec: the overall verdict switch over the general
state queries (the snapshots-size plugin's `main.go` is not under `src/`;
the spec states the precedence "critical > warning > ok" across the whole
`SummarySets` collection using `IsCriticalState` / `IsWarningState`, the
same switch shape the age plugin instantiates with its age variants). -/
def overallVerdict (sss : SnapshotSummarySets) : NagiosState :=
  if SnapshotSummarySets.IsCriticalState sss then NagiosState.CRITICAL
  else if SnapshotSummarySets.IsWarningState sss then NagiosState.WARNING
  else NagiosState.OK

/-! ### Helper lemmas -/

/-- The size-accumulating loop is the sum of the mapped sizes. -/
theorem foldl_add_size (l : List SnapshotSummary) (a : Int) :
    l.foldl (fun acc snap => acc + snap.Size) a = a + (l.map SnapshotSummary.Size).sum := by
  induction l generalizing a with
  | nil => simp
  | cons x xs ih => simp [ih]; ring

/-- `int64Wrap` is the identity on values already inside the `int64`
range. -/
theorem int64Wrap_eq_self (x : Int)
    (h1 : -9223372036854775808 ≤ x) (h2 : x < 9223372036854775808) :
    int64Wrap x = x := by
  unfold int64Wrap
  have hlo : (0 : Int) ≤ x + 9223372036854775808 := by omega
  have hhi : x + 9223372036854775808 < 18446744073709551616 := by omega
  rw [Int.emod_eq_of_lt hlo hhi]
  omega

/-- `removeFileKey` is `List.erase`: it drops the first occurrence only. -/
theorem removeFileKey_eq_erase (l : List Int) (key : Int) :
    removeFileKey l key = l.erase key := by
  induction l with
  | nil => rfl
  | cons k ks ih =>
      by_cases h : k = key
      · simp [removeFileKey, List.erase_cons, h]
      · simp [removeFileKey, List.erase_cons, h, ih]

/-- The removal loop over a list of keys is list difference. -/
theorem removeAll_eq_diff (l keys : List Int) :
    removeAll l keys = l.diff keys := by
  induction keys generalizing l with
  | nil => rfl
  | cons a as ih =>
      show List.foldl removeFileKey (removeFileKey l a) as = _
      rw [removeFileKey_eq_erase]
      exact (ih (l.erase a)).trans (List.diff_cons l as a).symm

/-- Removing keys none of which equals `d` keeps a leading `d` in place. -/
theorem removeAll_cons_not_mem (d : Int) (l keys : List Int) (h : d ∉ keys) :
    removeAll (d :: l) keys = d :: removeAll l keys := by
  induction keys generalizing l with
  | nil => rfl
  | cons a as ih =>
      have hda : d ≠ a := fun hd => h (hd ▸ List.mem_cons_self a as)
      show List.foldl removeFileKey (removeFileKey (d :: l) a) as = _
      rw [show removeFileKey (d :: l) a = d :: removeFileKey l a by simp [removeFileKey, hda]]
      exact ih (removeFileKey l a) (fun hmem => h (List.mem_cons_of_mem a hmem))

/-- Removing a list of keys from itself leaves nothing. -/
theorem removeAll_self (l : List Int) : removeAll l l = [] := by
  induction l with
  | nil => rfl
  | cons a as ih =>
      show List.foldl removeFileKey (removeFileKey (a :: as) a) as = []
      rw [show removeFileKey (a :: as) a = as by simp [removeFileKey]]
      exact ih

/-! ### Claim theorems -/

/-- Claim C6 (confirmed): `ExceedsAge(t, N)` is true exactly when the
creation timestamp is strictly before `now` minus `N` days, and the exact
boundary instant is not exceeded. -/
theorem exceedsAge_boundary (now snapshotCreated days : Int) :
    (ExceedsAge now snapshotCreated days = true ↔
      snapshotCreated < now - days * nsPerDay)
    ∧ ExceedsAge now (now - days * nsPerDay) days = false := by
  refine ⟨?_, ?_⟩
  · simp only [ExceedsAge]
    split_ifs with h1 h2 <;> simp_all
  · simp [ExceedsAge]

/-- Claim C7, counterexample: at the threshold 2^33 GB the Go `int64`
product `thresholdSize * units.GB` wraps to `-2^63`, so `ExceedsSize`
returns true for a zero-byte size even though 0 does not exceed
2^33 * 1024^3 bytes. -/
theorem exceedsSize_overflow_counterexample :
    ExceedsSize 0 8589934592 = true ∧ ¬ ((0 : Int) > 8589934592 * GB) := by
  constructor
  · decide
  · decide

/-- Claim C7, amended (thresholds whose byte conversion fits in `int64`):
`ExceedsSize(s, g)` is true exactly when `s` strictly exceeds `g * 1024^3`
bytes; the exact boundary is not exceeded, one byte more is. -/
theorem exceedsSize_boundary (s g : Int)
    (h1 : -8589934592 ≤ g) (h2 : g ≤ 8589934591) :
    (ExceedsSize s g = true ↔ s > g * GB)
    ∧ ExceedsSize (g * GB) g = false
    ∧ ExceedsSize (g * GB + 1) g = true := by
  have hwrap : int64Wrap (g * GB) = g * GB := by
    apply int64Wrap_eq_self <;> · simp only [GB] ; omega
  refine ⟨?_, ?_, ?_⟩
  · simp [ExceedsSize, hwrap]
  · simp [ExceedsSize, hwrap]
  · simp [ExceedsSize, hwrap]

/-- Claim C7 witness: the boundary behavior at the 1 GB threshold. -/
theorem exceedsSize_boundary_witness :
    (ExceedsSize 0 1 = true ↔ (0 : Int) > 1 * GB)
    ∧ ExceedsSize (1 * GB) 1 = false
    ∧ ExceedsSize (1 * GB + 1) 1 = true :=
  exceedsSize_boundary 0 1 (by decide) (by decide)

/-- Claim C2 (confirmed): the cumulative size reported by
`SnapshotSummarySet.Size`, and the `setSize` from which
`NewSnapshotSummarySet` computes the set-level size flags, are exactly the
sum of the attributed sizes of the contained summaries. -/
theorem newSnapshotSummarySet_size_conservation (now : Int) (vm : VirtualMachine)
    (snapshotsAgeCritical snapshotsAgeWarning snapshotsSizeCritical snapshotsSizeWarning : Int) :
    (NewSnapshotSummarySet now vm snapshotsAgeCritical snapshotsAgeWarning
        snapshotsSizeCritical snapshotsSizeWarning).Size
      = ((NewSnapshotSummarySet now vm snapshotsAgeCritical snapshotsAgeWarning
          snapshotsSizeCritical snapshotsSizeWarning).Snapshots.map SnapshotSummary.Size).sum
    ∧ (NewSnapshotSummarySet now vm snapshotsAgeCritical snapshotsAgeWarning
        snapshotsSizeCritical snapshotsSizeWarning).setSizeWarningState
      = ExceedsSize
          (((NewSnapshotSummarySet now vm snapshotsAgeCritical snapshotsAgeWarning
              snapshotsSizeCritical snapshotsSizeWarning).Snapshots.map SnapshotSummary.Size).sum)
          snapshotsSizeWarning
    ∧ (NewSnapshotSummarySet now vm snapshotsAgeCritical snapshotsAgeWarning
        snapshotsSizeCritical snapshotsSizeWarning).setSizeCriticalState
      = ExceedsSize
          (((NewSnapshotSummarySet now vm snapshotsAgeCritical snapshotsAgeWarning
              snapshotsSizeCritical snapshotsSizeWarning).Snapshots.map SnapshotSummary.Size).sum)
          snapshotsSizeCritical := by
  refine ⟨?_, ?_, ?_⟩ <;>
    simp [NewSnapshotSummarySet, SnapshotSummarySet.Size, foldl_add_size]

/-- A virtual machine with one root snapshot "snap1" that is not the active
snapshot ("other" is), whose snapshot layout lists exactly the disk chains
currently attached to the machine (keys 1 and 2) plus its own data file
(key 100, 5 bytes). -/
def vmC3 : VirtualMachine :=
  { Name := "vm3"
    Self := { Value := "vm-3" }
    Snapshot :=
      { CurrentSnapshot := { Value := "other" }
        RootSnapshotList := [ .mk { Value := "snap1" } "s1" "" 1 0 [] ] }
    LayoutEx :=
      { File :=
          [ { Key := 1, Name := "disk-descriptor", Size := 10 }
            , { Key := 2, Name := "disk-extent", Size := 20 }
            , { Key := 100, Name := "snapshot-data", Size := 5 } ]
        Disk := [ { Chain := [ { FileKey := [1, 2] } ] } ]
        Snapshot :=
          [ { Key := { Value := "snap1" }
              DataKey := 100
              Disk := [ { Chain := [ { FileKey := [1, 2] } ] } ] } ] } }

/-- Claim C3, counterexample: for the non-active root snapshot of `vmC3`,
whose disk chains (keys 1, 2) are identical to the machine's attached disk
chains, the attributed size is 5 (the size of its snapshot data file), not
zero. -/
theorem root_isolation_counterexample :
    vmAllDiskFileKeys vmC3 = [1, 2]
    ∧ snapshotDiskFileKeysFor vmC3.LayoutEx.Snapshot "snap1" = [100, 1, 2]
    ∧ vmC3.Snapshot.CurrentSnapshot.Value ≠ "snap1"
    ∧ attributedSize vmC3 "snap1" none = 5
    ∧ attributedSize vmC3 "snap1" none ≠ 0 := by
  refine ⟨by decide, by decide, by decide, by decide, by decide⟩

/-- Claim C3, amended: for a parentless snapshot node that is not the
active snapshot and whose layout keys are its data file followed by exactly
the machine's attached disk keys (the data file not being an attached disk
file), the attributed size equals the size of the snapshot's own data file
— the disk-chain files contribute nothing, but the data file is never
pruned, so the size is zero only when the data file is empty. -/
theorem root_isolation_amended (vm : VirtualMachine) (moid : String) (dk : Int)
    (h1 : snapshotDiskFileKeysFor vm.LayoutEx.Snapshot moid = dk :: vmAllDiskFileKeys vm)
    (h2 : dk ∉ vmAllDiskFileKeys vm)
    (h3 : moid ≠ vm.Snapshot.CurrentSnapshot.Value) :
    attributedSize vm moid none = fileKeyMapSize vm.LayoutEx.File dk := by
  simp only [attributedSize]
  rw [h1, removeAll_cons_not_mem dk _ _ h2, removeAll_self]
  simp [h3, sumSizes]

/-- Claim C3 witness: `root_isolation_amended` applied to `vmC3`. -/
theorem root_isolation_amended_witness :
    snapshotDiskFileKeysFor vmC3.LayoutEx.Snapshot "snap1" = 100 :: vmAllDiskFileKeys vmC3
    ∧ 100 ∉ vmAllDiskFileKeys vmC3
    ∧ "snap1" ≠ vmC3.Snapshot.CurrentSnapshot.Value
    ∧ attributedSize vmC3 "snap1" none = fileKeyMapSize vmC3.LayoutEx.File 100 :=
  ⟨by decide, by decide, by decide,
    root_isolation_amended vmC3 "snap1" 100 (by decide) (by decide) (by decide)⟩

/-- Claim C4 (confirmed): the attributed size of the node whose reference
value is `snapMOID` is the pruned-key sum, plus — exactly when the node is
the machine's currently-active snapshot — the summed sizes of the list
difference all-disk-keys minus this-snapshot-keys taken before any pruning;
a non-active node never receives that extra term. -/
theorem attributedSize_active_drift (vm : VirtualMachine) (snapMOID : String)
    (parent : Option ManagedObjectReference) :
    attributedSize vm snapMOID parent
      = sumSizes vm.LayoutEx.File
          (match parent with
            | none =>
                removeAll (snapshotDiskFileKeysFor vm.LayoutEx.Snapshot snapMOID)
                  (vmAllDiskFileKeys vm)
            | some _ =>
                removeAll (snapshotDiskFileKeysFor vm.LayoutEx.Snapshot snapMOID)
                  (parentSnapshotDiskFileKeysFor vm.LayoutEx.Snapshot parent))
        + (if snapMOID = vm.Snapshot.CurrentSnapshot.Value
            then sumSizes vm.LayoutEx.File
              ((vmAllDiskFileKeys vm).diff
                (snapshotDiskFileKeysFor vm.LayoutEx.Snapshot snapMOID))
            else 0) := by
  simp only [attributedSize]
  rw [removeAll_eq_diff (vmAllDiskFileKeys vm)]
  cases parent <;> split_ifs <;> simp

/-- A virtual machine with a single active root snapshot whose attributed
size is 1610612736 bytes (1.5 binary GB): strictly between a 1 GB warning
threshold and a 2 GB critical threshold. -/
def vmC1 : VirtualMachine :=
  { Name := "vm1"
    Self := { Value := "vm-1" }
    Snapshot :=
      { CurrentSnapshot := { Value := "snap1" }
        RootSnapshotList := [ .mk { Value := "snap1" } "s1" "" 1 0 [] ] }
    LayoutEx :=
      { File := [ { Key := 100, Name := "snapshot-data", Size := 1610612736 } ]
        Disk := []
        Snapshot := [ { Key := { Value := "snap1" }, DataKey := 100, Disk := [] } ] } }

/-- Claim C1 (code bug): with warning = 1 GB and critical = 2 GB, the only
snapshot of `vmC1` has attributed size 1610612736 bytes, which exceeds the
warning threshold but not the critical one; yet the emitted summary carries
`sizeWarningState = false` and `sizeCriticalState = true`, because lines
768-769 of the source pass the thresholds to `ExceedsSize` in swapped
order.  The set-level flags, computed two lines later from the same
cumulative size, carry the correct pairing (`setSizeWarningState = true`,
`setSizeCriticalState = false`). -/
theorem newSnapshotSummarySet_size_flags_swapped :
    ((NewSnapshotSummarySet 0 vmC1 10 5 2 1).Snapshots.map
        (fun snap => (snap.Size, snap.sizeWarningState, snap.sizeCriticalState))
      = [(1610612736, false, true)])
    ∧ ExceedsSize 1610612736 1 = true
    ∧ ExceedsSize 1610612736 2 = false
    ∧ (NewSnapshotSummarySet 0 vmC1 10 5 2 1).setSizeWarningState = true
    ∧ (NewSnapshotSummarySet 0 vmC1 10 5 2 1).setSizeCriticalState = false := by
  refine ⟨by decide, by decide, by decide, by decide, by decide⟩

/-- A summary value with every threshold flag clear; the concrete sets
below override the fields they need. -/
def baseSummary : SnapshotSummary :=
  { Name := "snap"
    MOID := "snapshot-1"
    Description := ""
    createTime := 0
    Size := 0
    ID := 1
    ageWarningState := false
    ageCriticalState := false
    sizeWarningState := false
    sizeCriticalState := false
    VMName := "vm" }

/-- A set whose two snapshots are each 644245094 bytes (about 0.6 GB), so
neither snapshot individually exceeds 1 GB while their 1288490188-byte sum
does. -/
def setC5 : SnapshotSummarySet :=
  { VM := { Value := "vm-5" }
    VMName := "vm5"
    Snapshots :=
      [ { baseSummary with Size := 644245094 }
        , { baseSummary with Size := 644245094 } ]
    setSizeWarningState := true
    setSizeCriticalState := false }

/-- Claim C5, counterexample: `SnapshotSummarySets.ExceedsSize` reports 2
snapshots for the 1 GB threshold on `[setC5]`, yet zero snapshots of the
set individually cross that threshold — the second component counts the
snapshots contained in the exceeding sets, not the snapshots crossing the
threshold. -/
theorem exceedsSize_sets_counterexample :
    SnapshotSummarySets.ExceedsSize [setC5] 1 = (1, 2)
    ∧ SnapshotSummarySet.ExceedsSize setC5 1 = 0 := by
  refine ⟨by decide, by decide⟩

/-- The accumulating pair loop of `SnapshotSummarySets.ExceedsAge`. -/
theorem exceedsAge_sets_foldl (now days : Int) (l : List SnapshotSummarySet) (a b : Nat) :
    l.foldl
        (fun acc set =>
          if SnapshotSummarySet.ExceedsAge now set days ≥ 1 then
            (acc.1 + 1, acc.2 + SnapshotSummarySet.ExceedsAge now set days)
          else acc)
        (a, b)
      = (a + l.countP (fun set => set.Snapshots.any (fun snap => snap.IsAgeExceeded now days)),
         b + (l.map (fun set =>
            set.Snapshots.countP (fun snap => snap.IsAgeExceeded now days))).sum) := by
  induction l generalizing a b with
  | nil => simp
  | cons x xs ih =>
      have hEA : SnapshotSummarySet.ExceedsAge now x days
          = x.Snapshots.countP (fun snap => snap.IsAgeExceeded now days) := rfl
      have hx : (SnapshotSummarySet.ExceedsAge now x days ≥ 1)
          ↔ x.Snapshots.any (fun snap => snap.IsAgeExceeded now days) = true := by
        rw [hEA]
        constructor
        · intro h
          exact List.any_eq_true.mpr (List.countP_pos_iff.mp (by omega))
        · intro h
          have := List.countP_pos_iff.mpr (List.any_eq_true.mp h)
          omega
      by_cases h : SnapshotSummarySet.ExceedsAge now x days ≥ 1
      · have hany := hx.mp h
        rw [List.foldl_cons, if_pos h, ih, List.countP_cons, List.map_cons, List.sum_cons,
          hany, Prod.mk.injEq, hEA]
        constructor
        · simp
          omega
        · omega
      · have hany : x.Snapshots.any (fun snap => snap.IsAgeExceeded now days) = false := by
          cases hb : x.Snapshots.any (fun snap => snap.IsAgeExceeded now days)
          · rfl
          · exact absurd (hx.mpr hb) h
        have hzero : x.Snapshots.countP (fun snap => snap.IsAgeExceeded now days) = 0 := by
          rw [hEA] at h
          omega
        rw [List.foldl_cons, if_neg h, ih, List.countP_cons, List.map_cons, List.sum_cons,
          hany, hzero]
        simp

/-- The accumulating pair loop of `SnapshotSummarySets.ExceedsSize`. -/
theorem exceedsSize_sets_foldl (sizeGB : Int) (l : List SnapshotSummarySet) (a b : Nat) :
    l.foldl
        (fun acc set =>
          if CheckVMware.ExceedsSize set.Size sizeGB then
            (acc.1 + 1, acc.2 + set.Snapshots.length)
          else acc)
        (a, b)
      = (a + l.countP (fun set => CheckVMware.ExceedsSize set.Size sizeGB),
         b + ((l.filter (fun set => CheckVMware.ExceedsSize set.Size sizeGB)).map
            (fun set => set.Snapshots.length)).sum) := by
  induction l generalizing a b with
  | nil => simp
  | cons x xs ih =>
      by_cases h : CheckVMware.ExceedsSize x.Size sizeGB = true
      · simp [List.foldl_cons, h, ih, List.countP_cons, List.filter_cons]
        omega
      · simp only [Bool.not_eq_true] at h
        simp [List.foldl_cons, h, ih, List.countP_cons, List.filter_cons]

/-- Claim C5, amended: on a collection of summary sets, `ExceedsAge`
returns the number of sets containing at least one snapshot exceeding the
age threshold, paired with the total number of individual snapshots
exceeding it; `ExceedsSize` returns the number of sets whose cumulative
size exceeds the threshold, paired with the total number of snapshots
contained in those sets (not the number of snapshots individually crossing
the threshold). -/
theorem exceedsAge_exceedsSize_sets_counts (now days sizeGB : Int)
    (sss : SnapshotSummarySets) :
    SnapshotSummarySets.ExceedsAge now sss days
      = (sss.countP (fun set => set.Snapshots.any (fun snap => snap.IsAgeExceeded now days)),
         (sss.map (fun set =>
            set.Snapshots.countP (fun snap => snap.IsAgeExceeded now days))).sum)
    ∧ SnapshotSummarySets.ExceedsSize sss sizeGB
      = (sss.countP (fun set => ExceedsSize set.Size sizeGB),
         ((sss.filter (fun set => ExceedsSize set.Size sizeGB)).map
            (fun set => set.Snapshots.length)).sum) := by
  constructor
  · simpa using exceedsAge_sets_foldl now days sss 0 0
  · simpa using exceedsSize_sets_foldl sizeGB sss 0 0

mutual

/-- Specification of the traversal: the (node, parent) pairs of one tree in
depth-first pre-order, the node before all of its descendants. -/
def treeNodesWithParents (t : VirtualMachineSnapshotTree)
    (parent : Option ManagedObjectReference) :
    List (VirtualMachineSnapshotTree × Option ManagedObjectReference) :=
  match t with
  | .mk snap nm desc id ct children =>
      (.mk snap nm desc id ct children, parent) ::
        forestNodesWithParents children (some snap)

/-- Specification of the traversal over a forest: siblings in input order,
each paired with the same parent context. -/
def forestNodesWithParents (ts : List VirtualMachineSnapshotTree)
    (parent : Option ManagedObjectReference) :
    List (VirtualMachineSnapshotTree × Option ManagedObjectReference) :=
  match ts with
  | [] => []
  | t :: rest => treeNodesWithParents t parent ++ forestNodesWithParents rest parent

end

mutual

/-- Number of nodes of one snapshot tree. -/
def treeSize : VirtualMachineSnapshotTree → Nat
  | .mk _ _ _ _ _ children => 1 + forestSize children

/-- Number of nodes of a snapshot forest. -/
def forestSize : List VirtualMachineSnapshotTree → Nat
  | [] => 0
  | t :: rest => treeSize t + forestSize rest

end

mutual

/-- `crawlTree` emits the summaries of the pre-order (node, parent) pairs
of the tree. -/
theorem crawlTree_eq_spec (now ac aw sc sw : Int) (vm : VirtualMachine)
    (t : VirtualMachineSnapshotTree) (parent : Option ManagedObjectReference) :
    crawlTree now ac aw sc sw vm t parent
      = (treeNodesWithParents t parent).map
          (fun np => mkSnapshotSummary now ac aw sc sw vm np.1 np.2) :=
  match t with
  | .mk snap nm desc id ct children => by
      rw [crawlTree, treeNodesWithParents, List.map_cons,
        crawlList_eq_spec now ac aw sc sw vm children (some snap)]

/-- `crawlList` emits the summaries of the pre-order (node, parent) pairs
of the forest. -/
theorem crawlList_eq_spec (now ac aw sc sw : Int) (vm : VirtualMachine)
    (ts : List VirtualMachineSnapshotTree) (parent : Option ManagedObjectReference) :
    crawlList now ac aw sc sw vm ts parent
      = (forestNodesWithParents ts parent).map
          (fun np => mkSnapshotSummary now ac aw sc sw vm np.1 np.2) :=
  match ts with
  | [] => by
      rw [crawlList, forestNodesWithParents, List.map_nil]
  | t :: rest => by
      rw [crawlList, forestNodesWithParents, List.map_append,
        crawlTree_eq_spec now ac aw sc sw vm t parent,
        crawlList_eq_spec now ac aw sc sw vm rest parent]

end

mutual

/-- One pre-order pair per node of a tree. -/
theorem treeNodesWithParents_length (t : VirtualMachineSnapshotTree)
    (parent : Option ManagedObjectReference) :
    (treeNodesWithParents t parent).length = treeSize t :=
  match t with
  | .mk snap nm desc id ct children => by
      rw [treeNodesWithParents, treeSize, List.length_cons,
        forestNodesWithParents_length children (some snap)]
      omega

/-- One pre-order pair per node of a forest. -/
theorem forestNodesWithParents_length (ts : List VirtualMachineSnapshotTree)
    (parent : Option ManagedObjectReference) :
    (forestNodesWithParents ts parent).length = forestSize ts :=
  match ts with
  | [] => by
      rw [forestNodesWithParents, forestSize, List.length_nil]
  | t :: rest => by
      rw [forestNodesWithParents, forestSize, List.length_append,
        treeNodesWithParents_length t parent,
        forestNodesWithParents_length rest parent]

end

/-- Claim C8 (confirmed): the walk of `NewSnapshotSummarySet` — total by
construction in this embedding — emits exactly one summary per node of the
forest, in depth-first pre-order with siblings in input order, and each
node's summary is built with its actual parent as parent context. -/
theorem crawl_preorder_complete (now ac aw sc sw : Int) (vm : VirtualMachine)
    (ts : List VirtualMachineSnapshotTree) (parent : Option ManagedObjectReference) :
    crawlList now ac aw sc sw vm ts parent
      = (forestNodesWithParents ts parent).map
          (fun np => mkSnapshotSummary now ac aw sc sw vm np.1 np.2)
    ∧ (crawlList now ac aw sc sw vm ts parent).length = forestSize ts
    ∧ (NewSnapshotSummarySet now vm ac aw sc sw).Snapshots
        = (forestNodesWithParents vm.Snapshot.RootSnapshotList none).map
            (fun np => mkSnapshotSummary now ac aw sc sw vm np.1 np.2) := by
  refine ⟨crawlList_eq_spec now ac aw sc sw vm ts parent, ?_, ?_⟩
  · rw [crawlList_eq_spec now ac aw sc sw vm ts parent, List.length_map,
      forestNodesWithParents_length]
  · rw [show (NewSnapshotSummarySet now vm ac aw sc sw).Snapshots
        = crawlList now ac aw sc sw vm vm.Snapshot.RootSnapshotList none from rfl,
      crawlList_eq_spec]

/-- Claim C9 (confirmed): the collection-level critical/warning queries
hold exactly when some snapshot of some set carries the corresponding
age or size flag, and the verdict precedence puts critical above warning
above OK. -/
theorem aggregate_state_queries (sss : SnapshotSummarySets) :
    (SnapshotSummarySets.IsCriticalState sss = true ↔
      ∃ set ∈ sss, ∃ snap ∈ set.Snapshots,
        snap.ageCriticalState = true ∨ snap.sizeCriticalState = true)
    ∧ (SnapshotSummarySets.IsWarningState sss = true ↔
      ∃ set ∈ sss, ∃ snap ∈ set.Snapshots,
        snap.ageWarningState = true ∨ snap.sizeWarningState = true)
    ∧ (SnapshotSummarySets.IsCriticalState sss = true →
        overallVerdict sss = NagiosState.CRITICAL) := by
  refine ⟨?_, ?_, ?_⟩
  · simp [SnapshotSummarySets.IsCriticalState, SnapshotSummarySet.IsCriticalState,
      SnapshotSummary.IsCriticalState, List.any_eq_true]
  · simp [SnapshotSummarySets.IsWarningState, SnapshotSummarySet.IsWarningState,
      SnapshotSummary.IsWarningState, List.any_eq_true]
  · intro h
    simp [overallVerdict, h]

/-- A set containing one snapshot that is size-critical (and nothing
else). -/
def setSizeCriticalOnly : SnapshotSummarySet :=
  { VM := { Value := "vm-9a" }
    VMName := "vm9a"
    Snapshots := [ { baseSummary with sizeCriticalState := true } ]
    setSizeWarningState := false
    setSizeCriticalState := false }

/-- A set containing one snapshot that is age-warning (and nothing
else). -/
def setAgeWarningOnly : SnapshotSummarySet :=
  { VM := { Value := "vm-9b" }
    VMName := "vm9b"
    Snapshots := [ { baseSummary with ageWarningState := true } ]
    setSizeWarningState := false
    setSizeCriticalState := false }

/-- Claim C9 witness: a collection with one size-critical set and one
age-warning-only set is in critical state and its verdict is CRITICAL. -/
theorem aggregate_state_queries_witness :
    SnapshotSummarySets.IsCriticalState [setSizeCriticalOnly, setAgeWarningOnly] = true
    ∧ SnapshotSummarySets.IsWarningState [setSizeCriticalOnly, setAgeWarningOnly] = true
    ∧ overallVerdict [setSizeCriticalOnly, setAgeWarningOnly] = NagiosState.CRITICAL :=
  ⟨by decide, by decide,
    (aggregate_state_queries [setSizeCriticalOnly, setAgeWarningOnly]).2.2 (by decide)⟩

/-- Claim C10 (confirmed): a set with no snapshots has size 0 and none of
the snapshot-scanning state queries hold on it; the empty collection
answers false to every aggregate state query, so a run with no snapshots
gets the OK verdict. -/
theorem empty_state_queries :
    (∀ set : SnapshotSummarySet, set.Snapshots = [] →
      set.Size = 0
      ∧ set.IsWarningState = false
      ∧ set.IsCriticalState = false
      ∧ set.IsAgeWarningState = false
      ∧ set.IsAgeCriticalState = false)
    ∧ SnapshotSummarySets.IsWarningState [] = false
    ∧ SnapshotSummarySets.IsCriticalState [] = false
    ∧ SnapshotSummarySets.IsAgeWarningState [] = false
    ∧ SnapshotSummarySets.IsAgeCriticalState [] = false
    ∧ SnapshotSummarySets.IsSizeWarningState [] = false
    ∧ SnapshotSummarySets.IsSizeCriticalState [] = false
    ∧ overallVerdict [] = NagiosState.OK
    ∧ snapshotsAgeVerdict [] = NagiosState.OK := by
  refine ⟨?_, by decide, by decide, by decide, by decide, by decide, by decide,
    by decide, by decide⟩
  intro set h
  refine ⟨?_, ?_, ?_, ?_, ?_⟩ <;>
    simp [SnapshotSummarySet.Size, SnapshotSummarySet.IsWarningState,
      SnapshotSummarySet.IsCriticalState, SnapshotSummarySet.IsAgeWarningState,
      SnapshotSummarySet.IsAgeCriticalState, h]

/-- A summary set for a machine whose snapshot list is empty. -/
def emptySet : SnapshotSummarySet :=
  { VM := { Value := "vm-10" }
    VMName := "vm10"
    Snapshots := []
    setSizeWarningState := false
    setSizeCriticalState := false }

/-- Claim C10 witness: the empty-set conjunct applied to `emptySet`. -/
theorem empty_state_queries_witness :
    emptySet.Size = 0
    ∧ emptySet.IsWarningState = false
    ∧ emptySet.IsCriticalState = false
    ∧ emptySet.IsAgeWarningState = false
    ∧ emptySet.IsAgeCriticalState = false :=
  empty_state_queries.1 emptySet (by decide)

end CheckVMware
